import Mathlib

/-!
Verification of the order-confirmation saga core of the LOCLY-DDD repository:
the Match Ledger adapter, the confirm-order orchestrator, the Stripe checkout
webhook dispatcher, the shipment-info finalizer and the customer linkage
adapter, shallowly embedded as executable Lean definitions, with theorems
settling the specification's claims about them.
-/

namespace Locly

/-! ## Match Ledger (MatchMongoRecorderAdapter) -/

/-- A document of the `matches` collection. `docId` mirrors the Mongo `_id`
field; `recordMatch` stores the order id there (`const matchId = orderId`) and
`findMatch` queries `_id` with the order id's binary. -/
structure MatchDoc where
  docId : Nat
  hostId : Nat
deriving DecidableEq

/-- The `Match` record returned by the recorder port: the (order, host) pair a
match id correlates. -/
structure Match where
  orderId : Nat
  hostId : Nat
deriving DecidableEq

/-- Errors observable from the match adapter. `entityNotFound` mirrors
`Code.ENTITY_NOT_FOUND_ERROR` (the spec's `MatchNotFound`); `nullDocument` is
the generic runtime failure of mapping a missing (null) document;
`duplicateKey` is the Mongo duplicate `_id` insertion error. -/
inductive MatchErr where
  | entityNotFound
  | nullDocument
  | duplicateKey
deriving DecidableEq

/-- `findOne` on the `matches` collection by `_id`: first document whose
`docId` equals the queried id, if any. -/
def findOneMatch : List MatchDoc → Nat → Option MatchDoc
  | [], _ => none
  | d :: rest, mid => if d.docId = mid then some d else findOneMatch rest mid

/-- `deleteOne` on the `matches` collection by `_id`: removes the first
document whose `docId` equals the queried id. -/
def deleteOneMatch : List MatchDoc → Nat → List MatchDoc
  | [], _ => []
  | d :: rest, mid => if d.docId = mid then rest else d :: deleteOneMatch rest mid

/-- `insertOne` on the `matches` collection: fails with the duplicate-key
error when a document with the same `_id` already exists, otherwise appends. -/
def insertOneMatch (ledger : List MatchDoc) (doc : MatchDoc) :
    Except MatchErr (List MatchDoc) :=
  if (findOneMatch ledger doc.docId).isSome then Except.error MatchErr.duplicateKey
  else Except.ok (ledger ++ [doc])

/-- Modelled from the spec: `matchToMongoDocument` lives in the
`MatchMongoMapper` file, which is not under `src/`; §6 declares document-store
field mapping a narrow conversion collaborator. The document's `_id` must hold
the order id, because the in-src `recordMatch` returns `matchId = orderId` and
the in-src `findMatch` queries `_id` with the order id. -/
def matchToMongoDocument (orderId hostId : Nat) : MatchDoc :=
  { docId := orderId, hostId := hostId }

/-- Modelled from the spec: `mongoDocumentToMatch` lives in the missing
`MatchMongoMapper` file; per §6 it only converts a fetched document's fields to
a `Match`. Applied to a missing (null) document its field access fails with a
generic runtime error, not an `ENTITY_NOT_FOUND` exception — the in-src
`findMatch` null-checks its `findOne` result before invoking the mapper, which
shows absence handling is not the mapper's concern. -/
def mongoDocumentToMatch : Option MatchDoc → Except MatchErr Match
  | some d => Except.ok { orderId := d.docId, hostId := d.hostId }
  | none => Except.error MatchErr.nullDocument

/-- `MatchMongoRecorderAdapter.recordMatch(orderId, hostId)`: sets
`matchId = orderId`, inserts the mapped document and returns the match id. -/
def recordMatch (ledger : List MatchDoc) (orderId hostId : Nat) :
    Except MatchErr (Nat × List MatchDoc) :=
  let matchId := orderId
  match insertOneMatch ledger (matchToMongoDocument orderId hostId) with
  | Except.error e => Except.error e
  | Except.ok ledger2 => Except.ok (matchId, ledger2)

/-- `MatchMongoRecorderAdapter.retrieveAndDeleteMatch(matchId)`: `findOne` by
`_id`, then `deleteOne` by `_id`, then map the fetched document — with no
null check between the fetch and the mapping. Returns the call's outcome
together with the collection state after the delete. -/
def retrieveAndDeleteMatch (ledger : List MatchDoc) (matchId : Nat) :
    Except MatchErr Match × List MatchDoc :=
  let matchDocument := findOneMatch ledger matchId
  let ledger2 := deleteOneMatch ledger matchId
  (mongoDocumentToMatch matchDocument, ledger2)

/-- `MatchMongoRecorderAdapter.findMatch(orderId, hostId)`: `findOne` by
`_id` and `hostId`, throwing `ENTITY_NOT_FOUND_ERROR` when absent. -/
def findMatch (ledger : List MatchDoc) (orderId hostId : Nat) :
    Except MatchErr Match :=
  match findOneMatch ledger orderId with
  | some d =>
      if d.hostId = hostId then mongoDocumentToMatch (some d)
      else Except.error MatchErr.entityNotFound
  | none => Except.error MatchErr.entityNotFound

/-- `n` repeated `retrieveAndDeleteMatch` calls for the same match id,
threading the collection state; returns the list of call outcomes and the
final state. -/
def consumeRuns : Nat → List MatchDoc → Nat → List (Except MatchErr Match) × List MatchDoc
  | 0, ledger, _ => ([], ledger)
  | n + 1, ledger, mid =>
      let step := retrieveAndDeleteMatch ledger mid
      let rest := consumeRuns n step.2 mid
      (step.1 :: rest.1, rest.2)

/-- Whether a consume outcome is a success (a `Match` was returned). -/
def exceptIsOk : Except MatchErr Match → Bool
  | Except.ok _ => true
  | Except.error _ => false

/-! ## Order domain model -/

/-- The order status state machine of the spec. -/
inductive OrderStatus where
  | Drafted
  | Confirmed
  | Finalized
deriving DecidableEq

/-- An ordered item. The presentation-only fields of the source entity
(title, store name, dimensions, weight, category) are read by no embedded
function and are omitted; `receivedDate` (an optional timestamp) and the
photo-reference sequence drive the completeness invariant. -/
structure Item where
  id : Nat
  receivedDate : Option Nat
  photos : List Nat
deriving DecidableEq

/-- A destination address; only its country is read by the embedded code. -/
structure Address where
  country : String
deriving DecidableEq

/-- The Order aggregate root. -/
structure Order where
  id : Nat
  customerId : Nat
  originCountry : String
  destination : Address
  items : List Item
  status : OrderStatus
  shipmentCost : Nat
  finalShipmentCost : Option Nat
  totalWeight : Option Nat
  hostId : Option Nat
  calculatorResultUrl : Option String
deriving DecidableEq

/-- `findOne` on the orders collection by id. -/
def findOrderById : List Order → Nat → Option Order
  | [], _ => none
  | o :: rest, oid => if o.id = oid then some o else findOrderById rest oid

/-! ## Confirm-order orchestrator (ConfirmOrderService) -/

/-- A host as the matcher sees it: id, origin-country service area,
availability flag. -/
structure Host where
  id : Nat
  country : String
  available : Bool
deriving DecidableEq

/-- The match record the orchestrator hands to its match cache:
`{id: matchId, orderId, hostId}`. -/
structure CacheMatch where
  id : Nat
  orderId : Nat
  hostId : Nat
deriving DecidableEq

/-- Failure kinds of the confirm-order saga. `serviceUnavailable` is raised
in the source as a `Code.INTERNAL_ERROR` exception with a service-availability
message. -/
inductive ConfirmErr where
  | orderNotFound
  | serviceUnavailable
  | noHostAvailable
  | duplicateMatch
deriving DecidableEq

/-- The Stripe checkout-session request as built by `matchOrderAndCheckout`:
a card payment of a fixed 10000-cent USD service fee, one quantity, the minted
match id in `client_reference_id`, and no metadata attached. -/
structure CheckoutRequest where
  currency : String
  unitAmount : Nat
  productName : String
  quantity : Nat
  clientReferenceId : Nat
  metadata : Option (List (String × String))
  mode : String
deriving DecidableEq

/-- The collaborators of a confirm-order run: the configured coverage lists
and hosts of the matcher, the fresh `EntityId` the run mints, and the session
id the payment gateway answers with. -/
structure ConfirmEnv where
  originCountriesAvailable : List String
  destinationCountriesAvailable : List String
  hosts : List Host
  freshMatchId : Nat
  checkoutSessionId : String
deriving DecidableEq

/-- The local state a confirm-order run touches: the order store, the match
cache, and the advisory events emitted so far. -/
structure ConfirmState where
  orderStore : List Order
  matchCache : List CacheMatch
  events : List String
deriving DecidableEq

def eventRejectedServiceAvailability : String := "order.rejected.service_availability"

def eventRejectedHostAvailability : String := "order.rejected.host_availability"

def eventAwaitingPayment : String := "order.awaiting_payment"

/-- Modelled from the spec: the `HostMatcherService` implementation is not
under src/ (only the port and its callers are); §4.1 defines
`checkServiceAvailability` as a pure capability lookup answering whether the
origin/destination pair is within the configured coverage lists. -/
def checkServiceAvailability (env : ConfirmEnv) (origin dest : String) : Bool :=
  env.originCountriesAvailable.contains origin &&
    env.destinationCountriesAvailable.contains dest

/-- Modelled from the spec: the `HostMatcherService` implementation is not
under src/; §4.1 defines `matchHost(originCountry)` as selecting one available
host in that origin country, failing with `NoHostAvailable` when none is. -/
def matchHost (env : ConfirmEnv) (origin : String) : Except ConfirmErr Host :=
  match env.hosts.find? (fun h => h.country == origin && h.available) with
  | some h => Except.ok h
  | none => Except.error ConfirmErr.noHostAvailable

/-- Modelled from the spec: the adapter behind the orchestrator's `MatchCache`
port is not under src/; §4.2 defines `record` as inserting a new record and
failing with `DuplicateMatch` if the match id already exists. -/
def recordMatchCache (cache : List CacheMatch) (m : CacheMatch) :
    Except ConfirmErr (List CacheMatch) :=
  if cache.any (fun c => c.id == m.id) then Except.error ConfirmErr.duplicateMatch
  else Except.ok (cache ++ [m])

/-- `ConfirmOrder.matchOrderToHost`: select a host for the order's origin
country, mint the fresh match id (`new EntityId()`, supplied by the
environment) and record `{id: matchId, orderId, hostId}` in the match cache;
returns the match id. -/
def matchOrderToHost (env : ConfirmEnv) (cache : List CacheMatch) (order : Order) :
    Except ConfirmErr (Nat × List CacheMatch) :=
  match matchHost env order.originCountry with
  | Except.error e => Except.error e
  | Except.ok host =>
      match recordMatchCache cache
          { id := env.freshMatchId, orderId := order.id, hostId := host.id } with
      | Except.error e => Except.error e
      | Except.ok cache2 => Except.ok (env.freshMatchId, cache2)

/-- The checkout-session request literal of the source: fixed usd/10000-cent
service fee line item, the match id as `client_reference_id`, payment mode,
and no metadata. -/
def mkCheckoutRequest (matchId : Nat) : CheckoutRequest :=
  { currency := "usd", unitAmount := 10000,
    productName := "Locly and Host Service Fee", quantity := 1,
    clientReferenceId := matchId, metadata := none, mode := "payment" }

/-- `ConfirmOrder.matchOrderAndCheckout`: load the order, check service
availability (emitting the service rejection event and rethrowing on
unavailability), match and record (emitting the host rejection event on any
failure of that step), create the checkout session for the fixed service fee
and emit the awaiting-payment event. Returns the outcome (the built request
and the gateway's session id) together with the resulting local state. -/
def matchOrderAndCheckout (env : ConfirmEnv) (st : ConfirmState) (orderId : Nat) :
    Except ConfirmErr (CheckoutRequest × String) × ConfirmState :=
  match findOrderById st.orderStore orderId with
  | none => (Except.error ConfirmErr.orderNotFound, st)
  | some order =>
      if checkServiceAvailability env order.originCountry order.destination.country then
        match matchOrderToHost env st.matchCache order with
        | Except.error e =>
            (Except.error e,
             { st with events := st.events ++ [eventRejectedHostAvailability] })
        | Except.ok (matchId, cache2) =>
            (Except.ok (mkCheckoutRequest matchId, env.checkoutSessionId),
             { st with matchCache := cache2,
                       events := st.events ++ [eventAwaitingPayment] })
      else
        (Except.error ConfirmErr.serviceUnavailable,
         { st with events := st.events ++ [eventRejectedServiceAvailability] })

/-- Whether a checkout request embeds the `{feeType: Service}` tag in its
correlation metadata, as claim C8 states the orchestrator does. -/
def embedsServiceFeeTag (r : CheckoutRequest) : Prop :=
  ∃ m, r.metadata = some m ∧ (("feeType", "service") : String × String) ∈ m

/-! ## Stripe checkout webhook dispatcher (StripeCheckoutWebhook) -/

/-- The metadata payload of a `checkout.session.completed` event: the
`feeType` discriminator (an arbitrary string, possibly missing) and the
correlation match id. -/
structure StripeCheckoutWebhookPayload where
  feeType : Option String
  matchId : Option Nat
deriving DecidableEq

/-- Modelled from the spec: the `FeeType` enum declaration is not under src/;
§6 gives its wire values as the strings `service` and `shipment`. -/
def feeTypeService : String := "service"

/-- Modelled from the spec: the shipment fee-type wire value (§6). -/
def feeTypeShipment : String := "shipment"

/-- Which completion handler the dispatcher invoked, with the payload it was
handed. -/
inductive RoutedHandler where
  | toConfirmOrder (payload : StripeCheckoutWebhookPayload)
  | toPayShipment (payload : StripeCheckoutWebhookPayload)
deriving DecidableEq

/-- The dispatcher's failure kind (`throwCustomException` on an unexpected
webhook type). -/
inductive WebhookErr where
  | unrecognizedWebhookPayload
deriving DecidableEq

/-- `StripeCheckoutWebhook.execute`: switch on the payload's `feeType` —
Service routes to the confirm-order completion handler, Shipment to the
pay-shipment completion handler, and any other or missing value throws the
unrecognized-payload exception without invoking either handler. -/
def stripeCheckoutWebhookExecute (payload : StripeCheckoutWebhookPayload) :
    Except WebhookErr RoutedHandler :=
  match payload.feeType with
  | some s =>
      if s = feeTypeService then Except.ok (RoutedHandler.toConfirmOrder payload)
      else if s = feeTypeShipment then Except.ok (RoutedHandler.toPayShipment payload)
      else Except.error WebhookErr.unrecognizedWebhookPayload
  | none => Except.error WebhookErr.unrecognizedWebhookPayload

/-! ## Shipment-info finalizer (SubmitShipmentInfo) -/

/-- The finalize request: order id, the calling host's id, the measured total
weight, the final shipment cost, and an optional calculator-result URL. -/
structure SubmitShipmentInfoPayload where
  orderId : Nat
  hostId : Nat
  totalWeight : Nat
  shipmentCost : Nat
  calculatorResultUrl : Option String
deriving DecidableEq

/-- Failure kinds of the finalizer: the filtered load missing
(`OrderNotFound`), the completeness gate (`IncompleteItems`, carrying the
offending item ids), and the single-result check of the conditional update. -/
inductive FinalizeErr where
  | orderNotFound
  | incompleteItems (notFinalizedItemIds : List Nat)
  | singleResultError
deriving DecidableEq

/-- One repository invocation made during finalize, recording the transaction
session handle (if any) that the call received. -/
inductive RepoCall where
  | findOrderCall (mongoTransactionSession : Option Nat)
  | setPropertiesCall (mongoTransactionSession : Option Nat)
deriving DecidableEq

/-- The item test of `getUnfinalizedItems`: an item is NOT finalized iff
`!(receivedDate && photos.length)` — it lacks a received date or has an empty
photo sequence. -/
def isItemNotFinalized (i : Item) : Bool :=
  !(i.receivedDate.isSome && !i.photos.isEmpty)

/-- Modelled from the spec: `IOrderRepository.findOrder` with a filter is not
under src/ (only its callers are); per §4.6 step 1 it loads the order matching
`{orderId, status, hostId}` and fails with `OrderNotFound` when the filtered
lookup misses. -/
def findOrderFiltered : List Order → Nat → OrderStatus → Nat → Option Order
  | [], _, _, _ => none
  | o :: rest, oid, stt, hid =>
      if o.id = oid ∧ o.status = stt ∧ o.hostId = some hid then some o
      else findOrderFiltered rest oid stt hid

/-- `SubmitShipmentInfo.getUnfinalizedItems(orderId, hostId)`: loads the order
filtered by `{orderId, status: Confirmed, hostId}` and returns its items
failing the completeness test. The source method has no session parameter and
passes nothing to `findOrder`; the returned call trace records the session the
repository call received (none). -/
def getUnfinalizedItems (store : List Order) (orderId hostId : Nat) :
    Except FinalizeErr (List Item) × List RepoCall :=
  match findOrderFiltered store orderId OrderStatus.Confirmed hostId with
  | none => (Except.error FinalizeErr.orderNotFound, [RepoCall.findOrderCall none])
  | some o => (Except.ok (o.items.filter isItemNotFinalized), [RepoCall.findOrderCall none])

/-- The `$set` update applied on success: status Finalized, totalWeight,
finalShipmentCost, and calculatorResultUrl only when the supplied value is
truthy (present and nonempty, mirroring the source's
`calculatorResultUrl ? { calculatorResultUrl } : {}`). -/
def applyFinalizeProperties (p : SubmitShipmentInfoPayload) (o : Order) : Order :=
  { o with status := OrderStatus.Finalized,
           totalWeight := some p.totalWeight,
           finalShipmentCost := some p.shipmentCost,
           calculatorResultUrl :=
             match p.calculatorResultUrl with
             | some url => if url = "" then o.calculatorResultUrl else some url
             | none => o.calculatorResultUrl }

/-- `updateOne` semantics on the orders collection: update the first order
matching the id. -/
def updateFirstOrder : List Order → Nat → (Order → Order) → List Order
  | [], _, _ => []
  | o :: rest, oid, f =>
      if o.id = oid then f o :: rest else o :: updateFirstOrder rest oid f

/-- Modelled from the spec: `IOrderRepository.setProperties` is not under
src/; per §4.6 step 3 it is a single conditional update of the order matching
the filter (here `{orderId}`), erroring when no single document was matched
and modified. -/
def setOrderProperties (store : List Order) (orderId : Nat) (f : Order → Order) :
    Except FinalizeErr (List Order) :=
  if (findOrderById store orderId).isSome then
    Except.ok (updateFirstOrder store orderId f)
  else Except.error FinalizeErr.singleResultError

/-- `SubmitShipmentInfo.finalizeOrder` run with transaction session `s`:
computes the unfinalized items (the load runs without the session, as in the
source), fails with `IncompleteItems` carrying their ids when any exist, and
otherwise applies the conditional update with the session. Returns the
outcome, the resulting order store and the trace of repository calls with the
session each received. -/
def finalizeOrder (store : List Order) (p : SubmitShipmentInfoPayload) (s : Nat) :
    Except FinalizeErr Unit × List Order × List RepoCall :=
  match getUnfinalizedItems store p.orderId p.hostId with
  | (Except.error e, trace) => (Except.error e, store, trace)
  | (Except.ok notFinalizedItems, trace) =>
      if notFinalizedItems.isEmpty then
        match setOrderProperties store p.orderId (applyFinalizeProperties p) with
        | Except.error e =>
            (Except.error e, store, trace ++ [RepoCall.setPropertiesCall (some s)])
        | Except.ok store2 =>
            (Except.ok (), store2, trace ++ [RepoCall.setPropertiesCall (some s)])
      else
        (Except.error (FinalizeErr.incompleteItems (notFinalizedItems.map Item.id)),
         store, trace)

/-! ## Customer linkage adapter (CustomerMongoRepositoryAdapter) -/

/-- A customer as the linkage adapter sees it: id and order-id list. -/
structure Customer where
  id : Nat
  orderIds : List Nat
deriving DecidableEq

/-- `findOne` on the customers collection by id. -/
def findCustomerById : List Customer → Nat → Option Customer
  | [], _ => none
  | c :: rest, cid => if c.id = cid then some c else findCustomerById rest cid

/-- `updateOne` semantics on the customers collection: update the first
customer matching the id; matching nothing changes nothing and still
resolves. -/
def updateFirstCustomer : List Customer → Nat → (Customer → Customer) → List Customer
  | [], _, _ => []
  | c :: rest, cid, f =>
      if c.id = cid then f c :: rest else c :: updateFirstCustomer rest cid f

/-- `CustomerMongoRepositoryAdapter.addOrderToCustomer({id: orderId,
customerId})`: an unconditional `updateOne` pushing the order id onto the
matched customer's `orderIds` (`$push`, not `$addToSet`); the catch only wraps
driver failures, so a missing customer is not an error. -/
def addOrderToCustomer (store : List Customer) (orderId customerId : Nat) :
    List Customer :=
  updateFirstCustomer store customerId
    (fun c => { c with orderIds := c.orderIds ++ [orderId] })

/-! ## Concrete fixtures used to instantiate theorems -/

/-- A sample Drafted order with origin US and destination DE. -/
def sampleOrder : Order :=
  { id := 1, customerId := 4, originCountry := "US",
    destination := { country := "DE" }, items := [],
    status := OrderStatus.Drafted, shipmentCost := 400,
    finalShipmentCost := none, totalWeight := none, hostId := none,
    calculatorResultUrl := none }

/-- A sample available host in the US. -/
def sampleHost : Host := { id := 2, country := "US", available := true }

/-- A sample environment with one available US host and US/DE coverage. -/
def sampleEnv : ConfirmEnv :=
  { originCountriesAvailable := ["US"], destinationCountriesAvailable := ["DE"],
    hosts := [sampleHost], freshMatchId := 11, checkoutSessionId := "cs_test_1" }

/-- The sample environment with zero hosts. -/
def sampleEnvNoHost : ConfirmEnv := { sampleEnv with hosts := [] }

/-- A sample local state holding the sample order, an empty match cache and no
emitted events. -/
def sampleState : ConfirmState :=
  { orderStore := [sampleOrder], matchCache := [], events := [] }

/-- A sample Confirmed order assigned to host 2, with one complete item. -/
def confirmedOrder : Order :=
  { id := 1, customerId := 4, originCountry := "US",
    destination := { country := "DE" },
    items := [{ id := 10, receivedDate := some 5, photos := [1] }],
    status := OrderStatus.Confirmed, shipmentCost := 400,
    finalShipmentCost := none, totalWeight := none, hostId := some 2,
    calculatorResultUrl := none }

/-- A sample finalize request by host 2 for order 1. -/
def finalizePayload : SubmitShipmentInfoPayload :=
  { orderId := 1, hostId := 2, totalWeight := 7, shipmentCost := 300,
    calculatorResultUrl := some "calcresult" }

end Locly

deriving instance DecidableEq for Except

namespace Locly

/-! ## Helper lemmas about the match collection -/

theorem findOneMatch_eq_none_of_forall (ledger : List MatchDoc) (mid : Nat)
    (h : ∀ d ∈ ledger, d.docId ≠ mid) : findOneMatch ledger mid = none := by
  induction ledger with
  | nil => rfl
  | cons d rest ih =>
      simp only [findOneMatch]
      rw [if_neg (h d (List.mem_cons_self d rest))]
      exact ih fun e he => h e (List.mem_cons_of_mem d he)

theorem findOneMatch_deleteOneMatch (ledger : List MatchDoc) (mid : Nat)
    (h : (ledger.map MatchDoc.docId).Nodup) :
    findOneMatch (deleteOneMatch ledger mid) mid = none := by
  induction ledger with
  | nil => rfl
  | cons d rest ih =>
      simp only [List.map_cons, List.nodup_cons] at h
      by_cases hd : d.docId = mid
      · simp only [deleteOneMatch, if_pos hd]
        apply findOneMatch_eq_none_of_forall
        intro e he heq
        exact h.1 (hd ▸ heq ▸ List.mem_map_of_mem MatchDoc.docId he)
      · simp only [deleteOneMatch, if_neg hd, findOneMatch, if_neg hd]
        exact ih h.2

theorem deleteOneMatch_of_absent (ledger : List MatchDoc) (mid : Nat)
    (h : findOneMatch ledger mid = none) : deleteOneMatch ledger mid = ledger := by
  induction ledger with
  | nil => rfl
  | cons d rest ih =>
      simp only [findOneMatch] at h
      by_cases hd : d.docId = mid
      · rw [if_pos hd] at h; exact absurd h (by simp)
      · rw [if_neg hd] at h
        simp only [deleteOneMatch, if_neg hd, ih h]

theorem consumeRuns_absent (n : Nat) (ledger : List MatchDoc) (mid : Nat)
    (h : findOneMatch ledger mid = none) :
    (consumeRuns n ledger mid).1 =
      List.replicate n (Except.error MatchErr.nullDocument) := by
  induction n generalizing ledger with
  | zero => rfl
  | succ n ih =>
      simp only [consumeRuns, retrieveAndDeleteMatch, h,
        deleteOneMatch_of_absent ledger mid h, mongoDocumentToMatch,
        List.replicate_succ, ih ledger h]

theorem countP_replicate_error (n : Nat) :
    (List.replicate n (Except.error MatchErr.nullDocument : Except MatchErr Match)).countP
      exceptIsOk = 0 := by
  induction n with
  | zero => rfl
  | succ n ih =>
      simp only [List.replicate, List.countP_cons, ih]
      rfl

theorem findOneMatch_append_self (ledger : List MatchDoc) (d : MatchDoc) :
    (findOneMatch (ledger ++ [d]) d.docId).isSome = true := by
  induction ledger with
  | nil => simp [findOneMatch]
  | cons e rest ih =>
      simp only [List.cons_append, findOneMatch]
      by_cases he : e.docId = d.docId
      · rw [if_pos he]; rfl
      · rw [if_neg he]; exact ih

/-! ## Claims C1 to C3: the Match Ledger adapter -/

/-- C1 counterexample: the claim that every non-winning consume call observes
`MatchNotFound` is false at a concrete input: with a single live match of id 5,
the second of two repeated `retrieveAndDeleteMatch` calls fails with the
generic null-document mapping error, which is not the `ENTITY_NOT_FOUND`
(`MatchNotFound`) exception. -/
theorem c1_counterexample :
    (consumeRuns 2 [{ docId := 5, hostId := 9 }] 5).1 =
      [Except.ok { orderId := 5, hostId := 9 }, Except.error MatchErr.nullDocument] ∧
    (Except.error MatchErr.nullDocument : Except MatchErr Match) ≠
      Except.error MatchErr.entityNotFound := by
  exact ⟨rfl, by decide⟩

/-- C1 (amended): for every match id, among any number of repeated
`retrieveAndDeleteMatch` calls for that id on a collection with unique
document ids, at most one call succeeds in returning the `Match`; every other
call fails, but with the generic null-document mapping error rather than the
`MatchNotFound` (`ENTITY_NOT_FOUND`) exception. -/
theorem c1_at_most_one_success (n : Nat) (ledger : List MatchDoc) (mid : Nat)
    (h : (ledger.map MatchDoc.docId).Nodup) :
    (consumeRuns n ledger mid).1.countP exceptIsOk ≤ 1 ∧
    ∀ r ∈ (consumeRuns n ledger mid).1, exceptIsOk r = false →
      r = Except.error MatchErr.nullDocument := by
  cases n with
  | zero =>
      refine ⟨by simp [consumeRuns], ?_⟩
      intro r hr
      simp [consumeRuns] at hr
  | succ n =>
      have habs : findOneMatch (deleteOneMatch ledger mid) mid = none :=
        findOneMatch_deleteOneMatch ledger mid h
      have hrest : (consumeRuns n (deleteOneMatch ledger mid) mid).1 =
          List.replicate n (Except.error MatchErr.nullDocument) :=
        consumeRuns_absent n (deleteOneMatch ledger mid) mid habs
      have hstep : (consumeRuns (n + 1) ledger mid).1 =
          mongoDocumentToMatch (findOneMatch ledger mid) ::
            List.replicate n (Except.error MatchErr.nullDocument) := by
        simp only [consumeRuns, retrieveAndDeleteMatch]
        rw [hrest]
      rw [hstep]
      constructor
      · rw [List.countP_cons, countP_replicate_error]
        cases hfind : findOneMatch ledger mid <;>
          simp [mongoDocumentToMatch, exceptIsOk]
      · intro r hr hfail
        rcases List.mem_cons.mp hr with h1 | h2
        · subst h1
          cases hfind : findOneMatch ledger mid with
          | none => rfl
          | some d =>
              rw [hfind] at hfail
              simp [mongoDocumentToMatch, exceptIsOk] at hfail
        · exact List.eq_of_mem_replicate h2

/-- C1 witness: the amended theorem applied at the concrete ledger holding one
match of id 5, with two repeated consume calls. -/
theorem c1_witness :
    (([{ docId := 5, hostId := 9 }] : List MatchDoc).map MatchDoc.docId).Nodup ∧
    ((consumeRuns 2 [{ docId := 5, hostId := 9 }] 5).1.countP exceptIsOk ≤ 1 ∧
      ∀ r ∈ (consumeRuns 2 [{ docId := 5, hostId := 9 }] 5).1,
        exceptIsOk r = false → r = Except.error MatchErr.nullDocument) :=
  ⟨by decide, c1_at_most_one_success 2 [{ docId := 5, hostId := 9 }] 5 (by decide)⟩

/-- C2: consume of an absent match id (here: any id on an empty collection, a
match never created or already consumed) does not fail with the
`MatchNotFound` (`ENTITY_NOT_FOUND`) exception the claim states:
`retrieveAndDeleteMatch` maps the missing (null) document and fails with a
generic runtime error instead, because the code omits the null check its
sibling `findMatch` performs. -/
theorem c2_absent_consume_not_match_not_found :
    retrieveAndDeleteMatch [] 5 = (Except.error MatchErr.nullDocument, []) ∧
    (Except.error MatchErr.nullDocument : Except MatchErr Match) ≠
      Except.error MatchErr.entityNotFound := by
  exact ⟨rfl, by decide⟩

/-- C3 counterexample: the claim that a match id never equals the order id it
correlates is false at a concrete input: `recordMatch` for order id 7 returns
match id 7 — the code sets `matchId = orderId`. -/
theorem c3_counterexample :
    recordMatch [] 7 3 =
      Except.ok (7, [{ docId := 7, hostId := 3 }]) := by
  rfl

/-- C3 (amended): the persistence recorder derives the match id from the order
id — it assigns the order id itself as the match id. Hence a recorded match id
always equals the order id it correlates, and a second confirmation attempt
for the same order does not yield a distinct match id: it fails with the
duplicate-key insertion error. -/
theorem c3_match_id_is_order_id (ledger : List MatchDoc)
    (orderId hostId m : Nat) (l2 : List MatchDoc)
    (h : recordMatch ledger orderId hostId = Except.ok (m, l2)) :
    m = orderId ∧ recordMatch l2 orderId hostId = Except.error MatchErr.duplicateKey := by
  by_cases hdup : (findOneMatch ledger orderId).isSome = true
  · exfalso
    simp only [recordMatch, insertOneMatch, matchToMongoDocument] at h
    rw [if_pos hdup] at h
    exact absurd h (by simp)
  · simp only [recordMatch, insertOneMatch, matchToMongoDocument] at h
    rw [if_neg hdup] at h
    have h2 : (orderId, ledger ++ [({ docId := orderId, hostId := hostId } : MatchDoc)]) =
        (m, l2) := Except.ok.inj h
    have hm : orderId = m := congrArg Prod.fst h2
    have hl : ledger ++ [({ docId := orderId, hostId := hostId } : MatchDoc)] = l2 :=
      congrArg Prod.snd h2
    refine ⟨hm.symm, ?_⟩
    have hself := findOneMatch_append_self ledger { docId := orderId, hostId := hostId }
    rw [hl] at hself
    simp only [recordMatch, insertOneMatch, matchToMongoDocument]
    rw [if_pos hself]

/-- C3 witness: the amended theorem applied at the concrete recording of order
7 with host 3 on an empty collection. -/
theorem c3_witness :
    recordMatch [] 7 3 = Except.ok (7, [{ docId := 7, hostId := 3 }]) ∧
    (7 = 7 ∧ recordMatch [{ docId := 7, hostId := 3 }] 7 3 =
      Except.error MatchErr.duplicateKey) :=
  ⟨by decide, c3_match_id_is_order_id [] 7 3 7 [{ docId := 7, hostId := 3 }] (by decide)⟩

/-! ## Claims C5, C6, C8: the confirm-order orchestrator -/

/-- C5: whenever the saga's matching phase fails — the service-availability
check fails, or no host is available — the run emits exactly the
corresponding rejection event and performs no mutation: the order store is
untouched (the order stays as it was, in particular Drafted) and the match
cache gains no record. -/
theorem c5_matching_failure_no_mutation (env : ConfirmEnv) (st : ConfirmState)
    (orderId : Nat) (o : Order)
    (ho : findOrderById st.orderStore orderId = some o) :
    (checkServiceAvailability env o.originCountry o.destination.country = false →
      matchOrderAndCheckout env st orderId =
        (Except.error ConfirmErr.serviceUnavailable,
         { st with events := st.events ++ [eventRejectedServiceAvailability] })) ∧
    (checkServiceAvailability env o.originCountry o.destination.country = true →
      matchHost env o.originCountry = Except.error ConfirmErr.noHostAvailable →
      matchOrderAndCheckout env st orderId =
        (Except.error ConfirmErr.noHostAvailable,
         { st with events := st.events ++ [eventRejectedHostAvailability] })) := by
  constructor
  · intro hsvc
    simp [matchOrderAndCheckout, ho, hsvc]
  · intro hsvc hhost
    simp [matchOrderAndCheckout, ho, hsvc, matchOrderToHost, hhost]

/-- C5 witness: the theorem applied at the sample state and the host-free
environment; the no-host branch is exercised with its premises holding. -/
theorem c5_witness :
    findOrderById sampleState.orderStore 1 = some sampleOrder ∧
    ((checkServiceAvailability sampleEnvNoHost sampleOrder.originCountry
        sampleOrder.destination.country = false →
      matchOrderAndCheckout sampleEnvNoHost sampleState 1 =
        (Except.error ConfirmErr.serviceUnavailable,
         { sampleState with events :=
             sampleState.events ++ [eventRejectedServiceAvailability] })) ∧
     (checkServiceAvailability sampleEnvNoHost sampleOrder.originCountry
        sampleOrder.destination.country = true →
      matchHost sampleEnvNoHost sampleOrder.originCountry =
        Except.error ConfirmErr.noHostAvailable →
      matchOrderAndCheckout sampleEnvNoHost sampleState 1 =
        (Except.error ConfirmErr.noHostAvailable,
         { sampleState with events :=
             sampleState.events ++ [eventRejectedHostAvailability] }))) :=
  ⟨by decide,
   c5_matching_failure_no_mutation sampleEnvNoHost sampleState 1 sampleOrder (by decide)⟩

/-- C6: a successful confirm-order run leaves the order store — and hence
every field of the order, its Drafted status included — exactly as it was;
the only local state added is the new match-cache record, and the run returns
the gateway's checkout session id. -/
theorem c6_success_no_order_mutation (env : ConfirmEnv) (st : ConfirmState)
    (orderId : Nat) (o : Order) (host : Host)
    (ho : findOrderById st.orderStore orderId = some o)
    (hsvc : checkServiceAvailability env o.originCountry o.destination.country = true)
    (hhost : matchHost env o.originCountry = Except.ok host)
    (hfresh : st.matchCache.any (fun c => c.id == env.freshMatchId) = false) :
    matchOrderAndCheckout env st orderId =
      (Except.ok (mkCheckoutRequest env.freshMatchId, env.checkoutSessionId),
       { st with
           matchCache := st.matchCache ++
             [{ id := env.freshMatchId, orderId := o.id, hostId := host.id }],
           events := st.events ++ [eventAwaitingPayment] }) := by
  simp [matchOrderAndCheckout, ho, hsvc, matchOrderToHost, hhost,
    recordMatchCache, hfresh]

/-- C6 witness: the theorem applied at the sample environment and state. -/
theorem c6_witness :
    findOrderById sampleState.orderStore 1 = some sampleOrder ∧
    checkServiceAvailability sampleEnv sampleOrder.originCountry
      sampleOrder.destination.country = true ∧
    matchHost sampleEnv sampleOrder.originCountry = Except.ok sampleHost ∧
    sampleState.matchCache.any (fun c => c.id == sampleEnv.freshMatchId) = false ∧
    matchOrderAndCheckout sampleEnv sampleState 1 =
      (Except.ok (mkCheckoutRequest sampleEnv.freshMatchId, sampleEnv.checkoutSessionId),
       { sampleState with
           matchCache := sampleState.matchCache ++
             [{ id := sampleEnv.freshMatchId, orderId := sampleOrder.id,
                hostId := sampleHost.id }],
           events := sampleState.events ++ [eventAwaitingPayment] }) :=
  ⟨by decide, by decide, by decide, by decide,
   c6_success_no_order_mutation sampleEnv sampleState 1 sampleOrder sampleHost
     (by decide) (by decide) (by decide) (by decide)⟩

/-- C8 counterexample: the claim that the checkout session embeds
`{feeType: Service, matchId}` as its correlation payload is false at a
concrete successful run: the request the orchestrator builds carries no
metadata at all, so no feeType tag is embedded — only the match id, in
`client_reference_id`. -/
theorem c8_counterexample :
    (matchOrderAndCheckout sampleEnv sampleState 1).1 =
      Except.ok (mkCheckoutRequest 11, "cs_test_1") ∧
    (mkCheckoutRequest 11).clientReferenceId = 11 ∧
    ¬ embedsServiceFeeTag (mkCheckoutRequest 11) := by
  refine ⟨by decide, rfl, ?_⟩
  rintro ⟨m, hm, -⟩
  simp [mkCheckoutRequest] at hm

/-- C8 (amended): the checkout session the orchestrator requests charges the
fixed service fee (10000 cents, usd) and embeds only the match id, in the
session's `client_reference_id` field; no feeType discriminator and no
metadata correlation payload are attached to the request. -/
theorem c8_fixed_fee_match_id_only (env : ConfirmEnv) (st : ConfirmState)
    (orderId : Nat) (o : Order) (host : Host)
    (ho : findOrderById st.orderStore orderId = some o)
    (hsvc : checkServiceAvailability env o.originCountry o.destination.country = true)
    (hhost : matchHost env o.originCountry = Except.ok host)
    (hfresh : st.matchCache.any (fun c => c.id == env.freshMatchId) = false) :
    ∃ req : CheckoutRequest,
      (matchOrderAndCheckout env st orderId).1 =
        Except.ok (req, env.checkoutSessionId) ∧
      req.currency = "usd" ∧ req.unitAmount = 10000 ∧
      req.clientReferenceId = env.freshMatchId ∧ req.metadata = none := by
  refine ⟨mkCheckoutRequest env.freshMatchId, ?_, rfl, rfl, rfl, rfl⟩
  simp [matchOrderAndCheckout, ho, hsvc, matchOrderToHost, hhost,
    recordMatchCache, hfresh]

/-- C8 witness: the amended theorem applied at the sample environment and
state. -/
theorem c8_witness :
    findOrderById sampleState.orderStore 1 = some sampleOrder ∧
    checkServiceAvailability sampleEnv sampleOrder.originCountry
      sampleOrder.destination.country = true ∧
    matchHost sampleEnv sampleOrder.originCountry = Except.ok sampleHost ∧
    sampleState.matchCache.any (fun c => c.id == sampleEnv.freshMatchId) = false ∧
    ∃ req : CheckoutRequest,
      (matchOrderAndCheckout sampleEnv sampleState 1).1 =
        Except.ok (req, sampleEnv.checkoutSessionId) ∧
      req.currency = "usd" ∧ req.unitAmount = 10000 ∧
      req.clientReferenceId = sampleEnv.freshMatchId ∧ req.metadata = none :=
  ⟨by decide, by decide, by decide, by decide,
   c8_fixed_fee_match_id_only sampleEnv sampleState 1 sampleOrder sampleHost
     (by decide) (by decide) (by decide) (by decide)⟩

/-! ## Claim C7: the webhook dispatcher -/

/-- C7: the dispatcher routes a payload with feeType Service to the
confirm-order completion handler, feeType Shipment to the pay-shipment
completion handler, and fails with the unrecognized-payload exception —
invoking neither handler — on any other or missing feeType value. -/
theorem c7_webhook_routing (payload : StripeCheckoutWebhookPayload) :
    (payload.feeType = some feeTypeService →
      stripeCheckoutWebhookExecute payload =
        Except.ok (RoutedHandler.toConfirmOrder payload)) ∧
    (payload.feeType = some feeTypeShipment →
      stripeCheckoutWebhookExecute payload =
        Except.ok (RoutedHandler.toPayShipment payload)) ∧
    ((payload.feeType = none ∨
        ∃ s, payload.feeType = some s ∧ s ≠ feeTypeService ∧ s ≠ feeTypeShipment) →
      stripeCheckoutWebhookExecute payload =
        Except.error WebhookErr.unrecognizedWebhookPayload) := by
  refine ⟨?_, ?_, ?_⟩
  · intro hft
    simp [stripeCheckoutWebhookExecute, hft]
  · intro hft
    simp [stripeCheckoutWebhookExecute, hft, feeTypeService, feeTypeShipment]
  · rintro (hft | ⟨s, hft, hs1, hs2⟩)
    · simp [stripeCheckoutWebhookExecute, hft]
    · simp [stripeCheckoutWebhookExecute, hft, hs1, hs2]

/-- C7 witness: the routing theorem applied to a concrete service-fee
payload. -/
theorem c7_witness :
    (some feeTypeService = some feeTypeService →
      stripeCheckoutWebhookExecute
          { feeType := some feeTypeService, matchId := some 11 } =
        Except.ok (RoutedHandler.toConfirmOrder
          { feeType := some feeTypeService, matchId := some 11 })) ∧
    (some feeTypeService = some feeTypeShipment →
      stripeCheckoutWebhookExecute
          { feeType := some feeTypeService, matchId := some 11 } =
        Except.ok (RoutedHandler.toPayShipment
          { feeType := some feeTypeService, matchId := some 11 })) ∧
    ((some feeTypeService = (none : Option String) ∨
        ∃ s, some feeTypeService = some s ∧ s ≠ feeTypeService ∧ s ≠ feeTypeShipment) →
      stripeCheckoutWebhookExecute
          { feeType := some feeTypeService, matchId := some 11 } =
        Except.error WebhookErr.unrecognizedWebhookPayload) :=
  c7_webhook_routing { feeType := some feeTypeService, matchId := some 11 }

/-! ## Helper lemmas about the finalizer and the customer adapter -/

theorem findOrderFiltered_spec (store : List Order) (oid : Nat)
    (stt : OrderStatus) (hid : Nat) (o : Order)
    (h : findOrderFiltered store oid stt hid = some o) :
    o ∈ store ∧ o.id = oid ∧ o.status = stt ∧ o.hostId = some hid := by
  induction store with
  | nil => cases h
  | cons c rest ih =>
      simp only [findOrderFiltered] at h
      split at h
      · next hc =>
          cases h
          exact ⟨List.mem_cons_self _ _, hc.1, hc.2.1, hc.2.2⟩
      · next hc =>
          obtain ⟨hm, h1, h2, h3⟩ := ih h
          exact ⟨List.mem_cons_of_mem c hm, h1, h2, h3⟩

theorem findOrderById_of_mem_nodup (store : List Order) (o : Order)
    (hnd : (store.map Order.id).Nodup) (hm : o ∈ store) :
    findOrderById store o.id = some o := by
  induction store with
  | nil => cases hm
  | cons c rest ih =>
      simp only [List.map_cons, List.nodup_cons] at hnd
      rcases List.mem_cons.mp hm with rfl | hm2
      · simp [findOrderById]
      · simp only [findOrderById]
        by_cases hc : c.id = o.id
        · exact absurd (hc ▸ List.mem_map_of_mem Order.id hm2) hnd.1
        · rw [if_neg hc]
          exact ih hnd.2 hm2

theorem findOrderById_updateFirstOrder (store : List Order) (oid : Nat)
    (f : Order → Order) (hf : ∀ o, (f o).id = o.id) :
    findOrderById (updateFirstOrder store oid f) oid =
      (findOrderById store oid).map f := by
  induction store with
  | nil => rfl
  | cons c rest ih =>
      by_cases hc : c.id = oid
      · simp [updateFirstOrder, findOrderById, hc, hf]
      · simp [updateFirstOrder, findOrderById, hc, ih]

theorem filter_notFinalized_eq_nil (items : List Item)
    (h : ∀ i ∈ items, i.receivedDate ≠ none ∧ i.photos ≠ []) :
    items.filter isItemNotFinalized = [] := by
  induction items with
  | nil => rfl
  | cons i rest ih =>
      have hi := h i (List.mem_cons_self i rest)
      have hfi : isItemNotFinalized i = false := by
        obtain ⟨h1, h2⟩ := hi
        cases hr : i.receivedDate with
        | none => exact absurd hr h1
        | some d =>
            cases hp : i.photos with
            | nil => exact absurd hp h2
            | cons x xs => simp [isItemNotFinalized, hr, hp]
      rw [List.filter_cons, if_neg (by simp [hfi])]
      exact ih fun j hj => h j (List.mem_cons_of_mem i hj)

theorem filter_notFinalized_ne_nil (items : List Item) (i : Item)
    (hm : i ∈ items) (hbad : i.receivedDate = none ∨ i.photos = []) :
    items.filter isItemNotFinalized ≠ [] := by
  have hfi : isItemNotFinalized i = true := by
    rcases hbad with h1 | h2
    · simp [isItemNotFinalized, h1]
    · simp [isItemNotFinalized, h2]
  intro hnil
  have hmem : i ∈ items.filter isItemNotFinalized :=
    List.mem_filter.mpr ⟨hm, hfi⟩
  rw [hnil] at hmem
  cases hmem

theorem updateFirstCustomer_of_absent (store : List Customer) (cid : Nat)
    (f : Customer → Customer) (h : ∀ c ∈ store, c.id ≠ cid) :
    updateFirstCustomer store cid f = store := by
  induction store with
  | nil => rfl
  | cons c rest ih =>
      simp only [updateFirstCustomer]
      rw [if_neg (h c (List.mem_cons_self c rest)),
        ih fun d hd => h d (List.mem_cons_of_mem c hd)]

theorem findCustomerById_updateFirstCustomer (store : List Customer) (cid : Nat)
    (f : Customer → Customer) (hf : ∀ c, (f c).id = c.id) :
    findCustomerById (updateFirstCustomer store cid f) cid =
      (findCustomerById store cid).map f := by
  induction store with
  | nil => rfl
  | cons c rest ih =>
      by_cases hc : c.id = cid
      · simp [updateFirstCustomer, findCustomerById, hc, hf]
      · simp [updateFirstCustomer, findCustomerById, hc, ih]

/-! ## Claims C4 and C9: the shipment-info finalizer -/

/-- C4: for an order in status Confirmed loaded for its assigned host,
finalize fails with IncompleteItems carrying exactly the offending item ids
and leaves the store unmutated iff some item lacks a received date or has an
empty photo sequence; it succeeds iff all items are complete, and then the
order's status is Finalized, its totalWeight and finalShipmentCost are set,
and its calculatorResultUrl is set when a (truthy) value was supplied. -/
theorem c4_finalize_gate (store : List Order) (p : SubmitShipmentInfoPayload)
    (o : Order) (s : Nat)
    (hnd : (store.map Order.id).Nodup)
    (ho : findOrderFiltered store p.orderId OrderStatus.Confirmed p.hostId = some o) :
    ((∃ i ∈ o.items, i.receivedDate = none ∨ i.photos = []) →
      (finalizeOrder store p s).1 =
        Except.error (FinalizeErr.incompleteItems
          ((o.items.filter isItemNotFinalized).map Item.id)) ∧
      (finalizeOrder store p s).2.1 = store) ∧
    ((∀ i ∈ o.items, i.receivedDate ≠ none ∧ i.photos ≠ []) →
      (finalizeOrder store p s).1 = Except.ok () ∧
      findOrderById (finalizeOrder store p s).2.1 p.orderId =
        some (applyFinalizeProperties p o) ∧
      (applyFinalizeProperties p o).status = OrderStatus.Finalized ∧
      (applyFinalizeProperties p o).totalWeight = some p.totalWeight ∧
      (applyFinalizeProperties p o).finalShipmentCost = some p.shipmentCost ∧
      ∀ url, p.calculatorResultUrl = some url → url ≠ "" →
        (applyFinalizeProperties p o).calculatorResultUrl = some url) := by
  obtain ⟨hmem, hid, hst, hhid⟩ :=
    findOrderFiltered_spec store p.orderId OrderStatus.Confirmed p.hostId o ho
  constructor
  · rintro ⟨i, him, hbad⟩
    have hne := filter_notFinalized_ne_nil o.items i him hbad
    cases hfl : o.items.filter isItemNotFinalized with
    | nil => exact absurd hfl hne
    | cons x xs =>
        constructor
        · simp [finalizeOrder, getUnfinalizedItems, ho, hfl]
        · simp [finalizeOrder, getUnfinalizedItems, ho, hfl]
  · intro hall
    have hfl : o.items.filter isItemNotFinalized = [] :=
      filter_notFinalized_eq_nil o.items hall
    have hfind : findOrderById store p.orderId = some o := by
      have hfind0 := findOrderById_of_mem_nodup store o hnd hmem
      rw [hid] at hfind0
      exact hfind0
    have hsome : (findOrderById store p.orderId).isSome = true := by
      rw [hfind]; rfl
    have hred : finalizeOrder store p s =
        (Except.ok (), updateFirstOrder store p.orderId (applyFinalizeProperties p),
         [RepoCall.findOrderCall none, RepoCall.setPropertiesCall (some s)]) := by
      simp [finalizeOrder, getUnfinalizedItems, ho, hfl, setOrderProperties, hsome]
    rw [hred]
    refine ⟨rfl, ?_, rfl, rfl, rfl, ?_⟩
    · rw [findOrderById_updateFirstOrder store p.orderId
        (applyFinalizeProperties p) (fun o2 => rfl), hfind]
      rfl
    · intro url hurl hnurl
      simp [applyFinalizeProperties, hurl, hnurl]

/-- C4 witness: the finalize-gate theorem applied at the one-order store whose
single item is complete; the success branch is exercised. -/
theorem c4_witness :
    (([confirmedOrder].map Order.id)).Nodup ∧
    findOrderFiltered [confirmedOrder] finalizePayload.orderId
      OrderStatus.Confirmed finalizePayload.hostId = some confirmedOrder ∧
    (((∃ i ∈ confirmedOrder.items, i.receivedDate = none ∨ i.photos = []) →
      (finalizeOrder [confirmedOrder] finalizePayload 42).1 =
        Except.error (FinalizeErr.incompleteItems
          ((confirmedOrder.items.filter isItemNotFinalized).map Item.id)) ∧
      (finalizeOrder [confirmedOrder] finalizePayload 42).2.1 = [confirmedOrder]) ∧
    ((∀ i ∈ confirmedOrder.items, i.receivedDate ≠ none ∧ i.photos ≠ []) →
      (finalizeOrder [confirmedOrder] finalizePayload 42).1 = Except.ok () ∧
      findOrderById (finalizeOrder [confirmedOrder] finalizePayload 42).2.1
          finalizePayload.orderId =
        some (applyFinalizeProperties finalizePayload confirmedOrder) ∧
      (applyFinalizeProperties finalizePayload confirmedOrder).status =
        OrderStatus.Finalized ∧
      (applyFinalizeProperties finalizePayload confirmedOrder).totalWeight =
        some finalizePayload.totalWeight ∧
      (applyFinalizeProperties finalizePayload confirmedOrder).finalShipmentCost =
        some finalizePayload.shipmentCost ∧
      ∀ url, finalizePayload.calculatorResultUrl = some url → url ≠ "" →
        (applyFinalizeProperties finalizePayload confirmedOrder).calculatorResultUrl =
          some url)) :=
  ⟨by decide, by decide,
   c4_finalize_gate [confirmedOrder] finalizePayload confirmedOrder 42
     (by decide) (by decide)⟩

/-- C9: the filtered order load of finalize does NOT receive the enclosing
transaction handle: evaluating finalizeOrder with session 42 shows the
repository trace — findOrder was invoked with no session while setProperties
received session 42, refuting that every repository call made during finalize
receives the enclosing transaction handle. -/
theorem c9_find_order_runs_without_session :
    (finalizeOrder [confirmedOrder] finalizePayload 42).2.2 =
      [RepoCall.findOrderCall none, RepoCall.setPropertiesCall (some 42)] ∧
    RepoCall.findOrderCall none ≠ RepoCall.findOrderCall (some 42) := by
  exact ⟨by decide, by decide⟩

/-! ## Claim C10: the customer linkage adapter -/

/-- C10: addOrderToCustomer appends unconditionally — invoked with a customer
id matching no stored customer it completes while changing nothing, and
invoked twice with the same (customer, order) pair it appends the order id
twice, leaving a duplicate entry in the customer's orderIds. -/
theorem c10_add_order_unconditional (store : List Customer)
    (orderId customerId absentId : Nat) (c : Customer)
    (hc : findCustomerById store customerId = some c)
    (habs : ∀ d ∈ store, d.id ≠ absentId) :
    addOrderToCustomer store orderId absentId = store ∧
    findCustomerById
        (addOrderToCustomer (addOrderToCustomer store orderId customerId)
          orderId customerId) customerId =
      some { c with orderIds := c.orderIds ++ [orderId, orderId] } := by
  constructor
  · exact updateFirstCustomer_of_absent store absentId _ habs
  · rw [addOrderToCustomer, addOrderToCustomer,
      findCustomerById_updateFirstCustomer _ _
        (fun c2 => { c2 with orderIds := c2.orderIds ++ [orderId] }) (fun d => rfl),
      findCustomerById_updateFirstCustomer _ _
        (fun c2 => { c2 with orderIds := c2.orderIds ++ [orderId] }) (fun d => rfl),
      hc]
    simp

/-- C10 witness: the theorem applied to a one-customer store — order 3 pushed
twice onto customer 8 duplicates, and customer id 9 matches nothing and
changes nothing. -/
theorem c10_witness :
    addOrderToCustomer [{ id := 8, orderIds := [1] }] 3 9 =
      [{ id := 8, orderIds := [1] }] ∧
    findCustomerById
        (addOrderToCustomer (addOrderToCustomer [{ id := 8, orderIds := [1] }] 3 8) 3 8)
        8 =
      some { id := 8, orderIds := [1, 3, 3] } :=
  c10_add_order_unconditional [{ id := 8, orderIds := [1] }] 3 8 9
    { id := 8, orderIds := [1] } (by decide) (by decide)

end Locly
